import Mathlib

/-!
Verification of the PyOM orchestration core (climate/pyom/pyom.py).

The development shallowly embeds the orchestration surface of the `PyOM`
class: the three-level time staggering and its rotation (`run`, the
shift-time block), the conditional state allocator (`allocate`), the
`flush` error absorption, the step loop with its end-iteration
computation, the setup-time TKE/implicit-friction check (`setup`), the
restart reads, and the panic-snapshot failure path.  Physics stages,
the restart codec and diagnostics are external collaborators in the
source; they are represented by an oracle that may fail at any step,
and by instrumentation counters recording which collaborator calls the
orchestrator issued.
-/

/-- Python exception values as observed by the orchestrator: a constructor
is the exception type, the `String` argument its message. -/
inductive PyError where
  | runtimeError (msg : String)
  | attributeError (msg : String)
  | unboundLocalError (msg : String)
  | stageFailure (ty : String) (msg : String)
  deriving DecidableEq

/-- The three time-level index attributes of `PyOM`: `taum1` is the slot
labeled previous, `tau` current, `taup1` next.  Each holds a physical
storage position (the index into the trailing size-3 axis). -/
structure TimeLevels where
  taum1 : Nat
  tau : Nat
  taup1 : Nat
  deriving DecidableEq

/-- The shift-time block at the end of each step of `PyOM.run`:
`otaum1 = taum1; taum1 = tau; tau = taup1; taup1 = otaum1`. -/
def rotate (t : TimeLevels) : TimeLevels :=
  { taum1 := t.tau, tau := t.taup1, taup1 := t.taum1 }

/-- Modelled from the spec: the initial slot assignment comes from the
settings defaults (the `settings` module is not under src/); the spec
states that the TimeIndex is reset to identity at State creation, so
previous maps to position 0, current to 1, next to 2. -/
def initialTimeLevels : TimeLevels :=
  { taum1 := 0, tau := 1, taup1 := 2 }

/-- The label-to-position mapping is a permutation of the three physical
positions: the three labels hit the positions 0, 1, 2 exactly once. -/
def isPermutation (t : TimeLevels) : Prop :=
  ({t.taum1, t.tau, t.taup1} : Multiset Nat) = {0, 1, 2}

instance (t : TimeLevels) : Decidable (isPermutation t) :=
  inferInstanceAs (Decidable (({t.taum1, t.tau, t.taup1} : Multiset Nat) = {0, 1, 2}))

/-- The three logical slot labels of a time-dependent field. -/
inductive SlotLabel where
  | previous
  | current
  | next
  deriving DecidableEq

/-- Which physical position a logical label currently refers to. -/
def slotIndex (t : TimeLevels) : SlotLabel → Nat
  | SlotLabel.previous => t.taum1
  | SlotLabel.current => t.tau
  | SlotLabel.next => t.taup1

/-- One time-dependent field: the slot labels plus the physical storage
positions of its trailing size-3 axis (a map from position to content,
standing for the per-position sub-arrays). -/
structure TimeSlottedField where
  levels : TimeLevels
  data : Nat → Rat

/-- Rotation acting on a field: it relabels the slots and touches no
array contents (the `data` component is left untouched, as the source
assigns only the three integer attributes). -/
def rotateField (f : TimeSlottedField) : TimeSlottedField :=
  { f with levels := rotate f.levels }

/-- Read the sub-array currently labeled `l`. -/
def readSlot (f : TimeSlottedField) (l : SlotLabel) : Rat :=
  f.data (slotIndex f.levels l)

/-- Write the sub-array currently labeled `l` in place. -/
def writeSlot (f : TimeSlottedField) (l : SlotLabel) (v : Rat) : TimeSlottedField :=
  { f with data := fun i => if i = slotIndex f.levels l then v else f.data i }

/-- The orchestrator-visible state of a `PyOM` instance: the iteration
counter `itt` and end iteration `enditt`, the time-level indices, the
settings flags consulted by `run` and `setup`, and instrumentation
recording the collaborator calls issued (restart sub-reads, completed
steps, panic snapshots, boundary exchanges with their target slot). -/
structure SimState where
  itt : Int
  enditt : Int
  timeLevels : TimeLevels
  enable_tke : Bool
  enable_implicit_vert_friction : Bool
  enable_cyclic_x : Bool
  enable_eke : Bool
  enable_idemix : Bool
  enable_idemix_M2 : Bool
  enable_idemix_niw : Bool
  enable_diag_averages : Bool
  enable_diag_energy : Bool
  enable_diag_overturning : Bool
  enable_diag_particles : Bool
  restartReads : List String
  stepsExecuted : Nat
  panicSnaps : Nat
  exchanges : List (String × Nat)
  deriving DecidableEq

/-- The main boundary exchange block of `PyOM.run`: gated by
`enable_cyclic_x`; when active, `setcyclic_x` is applied to the `taup1`
slot of `u` and `v` unconditionally and of `tke`, `eke`, `E_iw`,
`E_M2`, `E_niw` under their own flags, in source order. -/
def boundaryExchanges (s : SimState) : List (String × Nat) :=
  if s.enable_cyclic_x then
    [("u", s.timeLevels.taup1), ("v", s.timeLevels.taup1)]
    ++ (if s.enable_tke then [("tke", s.timeLevels.taup1)] else [])
    ++ (if s.enable_eke then [("eke", s.timeLevels.taup1)] else [])
    ++ (if s.enable_idemix then [("E_iw", s.timeLevels.taup1)] else [])
    ++ (if s.enable_idemix_M2 then [("E_M2", s.timeLevels.taup1)] else [])
    ++ (if s.enable_idemix_niw then [("E_niw", s.timeLevels.taup1)] else [])
  else []

/-- Effect of one successfully completed step of the loop body of
`PyOM.run` on the orchestrator state: the boundary exchange runs (the
physics stages, flush and diagnostics act only on collaborator state),
then the time levels rotate and the iteration counter is incremented. -/
def stepSuccess (s : SimState) : SimState :=
  { s with
    exchanges := s.exchanges ++ boundaryExchanges s,
    timeLevels := rotate s.timeLevels,
    itt := s.itt + 1,
    stepsExecuted := s.stepsExecuted + 1 }

/-- The step loop of `PyOM.run`: while `itt < enditt`, run one step.  A
collaborator stage failing inside the step body is represented by the
oracle returning an error for that iteration index; the failure aborts
the step before rotation and counter increment and propagates out of
the loop.  The fuel argument bounds the recursion and is chosen in
`run` so that it never runs out before the loop guard fails. -/
def runLoop (oracle : Int → Option PyError) : Nat → SimState → SimState × Option PyError
  | 0, s => (s, none)
  | fuel + 1, s =>
    if s.itt < s.enditt then
      match oracle s.itt with
      | some e => (s, some e)
      | none => runLoop oracle fuel (stepSuccess s)
    else (s, none)

/-- Python `int()` applied to an exact quotient: truncation toward zero
of a rational number. -/
def int_trunc (q : Rat) : Int :=
  q.num.tdiv q.den

/-- Line 145 of the source: `enditt = itt + int(runlen / dt_tracer)`. -/
def computeEnditt (itt : Int) (runlen dt_tracer : Rat) : Int :=
  itt + int_trunc (runlen / dt_tracer)

/-- The `RuntimeError` raised by `PyOM.setup` when the TKE closure is
enabled without implicit vertical friction (message as in the source,
typo included). -/
def tke_friction_error : PyError :=
  PyError.runtimeError ("ERROR: use TKE model only with implicit vertical friction\n\t-> switch on enable_implicit_vert_fricton in setup")

/-- `PyOM.setup`: the grid, topography, initial-condition and module
initializations are collaborator calls acting on collaborator state;
the one orchestrator-visible outcome is the final configuration check,
which raises iff `enable_tke and not enable_implicit_vert_friction`. -/
def setup (s : SimState) : Except PyError SimState :=
  if s.enable_tke && ! s.enable_implicit_vert_friction then
    Except.error tke_friction_error
  else
    Except.ok s

/-- The restart reads issued by `PyOM.run` after `setup`:
`restart.read_restart` unconditionally, then one diagnostic sub-read
per enabled diagnostic flag, in source order. -/
def restartReadCalls (s : SimState) : List String :=
  ["read_restart"]
  ++ (if s.enable_diag_averages then ["diag_averages_read_restart"] else [])
  ++ (if s.enable_diag_energy then ["diag_energy_read_restart"] else [])
  ++ (if s.enable_diag_overturning then ["diag_over_read_restart"] else [])
  ++ (if s.enable_diag_particles then ["diag_particles_read_restart"] else [])

/-- Perform the restart reads, recording them in the instrumentation. -/
def read_restarts (s : SimState) : SimState :=
  { s with restartReads := s.restartReads ++ restartReadCalls s }

/-- Modelled from the spec: the body of `diagnostics.panic_snap` is in
the diagnostics module, which is not under src/; the spec states that
the panic snapshot must not raise and that any secondary failure during
snapshotting is suppressed, so the call returns normally whether or not
it fails internally.  The orchestrator records one invocation. -/
def panic_snap (_internalFailure : Bool) (s : SimState) : SimState :=
  { s with panicSnaps := s.panicSnaps + 1 }

/-- `PyOM.run` (profiling disabled, the command-line default): setup,
then the restart reads, then the end-iteration computation, then the
step loop wrapped in the panic handler: a failure propagating from the
loop triggers one `panic_snap` call and is re-raised unchanged; a
`setup` failure propagates before any restart read and before the
loop. -/
def run (oracle : Int → Option PyError) (snapFails : Bool) (runlen dt_tracer : Rat)
    (s0 : SimState) : SimState × Option PyError :=
  match setup s0 with
  | Except.error e => (s0, some e)
  | Except.ok s1 =>
    let s2 := read_restarts s1
    let s3 := { s2 with enditt := computeEnditt s2.itt runlen dt_tracer }
    match runLoop oracle (s3.enditt - s3.itt).toNat s3 with
    | (s4, none) => (s4, none)
    | (s4, some e) => (panic_snap snapFails s4, some e)

/-- `PyOM.flush`: call the backend flush hook (whose outcome is the
argument) and swallow exactly the `AttributeError` raised when the
configured backend object has no flush operation. -/
def flush (backend_flush : Except PyError Unit) : Except PyError Unit :=
  match backend_flush with
  | Except.error (PyError.attributeError _) => Except.ok ()
  | r => r

/-- `profiler.stop()` in the finally block of `PyOM.run`: if the
profiler local was never assigned (the loop never reached iteration 3,
or failed first), the reference raises `UnboundLocalError`. -/
def profiler_stop (profiler_started : Bool) : Except PyError Unit :=
  if profiler_started then Except.ok ()
  else Except.error (PyError.unboundLocalError ("local variable profiler referenced before assignment"))

/-- The profiling finalization in the finally block of `PyOM.run`
(lines 250-256): when `profile_mode` is set, stop the profiler and
write the report, silently absorbing `UnboundLocalError`. -/
def profiler_finalize (profile_mode profiler_started : Bool) : Except PyError Unit :=
  if profile_mode then
    match profiler_stop profiler_started with
    | Except.error (PyError.unboundLocalError _) => Except.ok ()
    | r => r
  else Except.ok ()

/-- One entry of the variable catalog (`variables.MAIN_VARIABLES` /
`variables.CONDITIONAL_VARIABLES` live in the `variables` module, not
under src/, so catalogs are parameters): the dimension tags and element
type of a field descriptor. -/
structure VarDesc where
  dims : List String
  dtype : String
  deriving DecidableEq

/-- A backend array as the allocator produces it: its shape, element
type, and contents indexed by multi-index. -/
structure PyArray where
  shape : List Nat
  dtype : String
  data : List Nat → Rat

/-- `backend.zeros(shape, dtype)`: a zero-initialized array. -/
def zeros (shape : List Nat) (dtype : String) : PyArray :=
  { shape := shape, dtype := dtype, data := fun _ => 0 }

/-- The inner `init_var` of `PyOM.allocate`: resolve the shape, bind a
zero array to the attribute name and record the descriptor.  State is
the attribute/descriptor mapping; a later binding overwrites an
earlier one, as attribute and dict assignment do. -/
def init_var (get_dimensions : List String → List Nat)
    (st : String → Option (PyArray × VarDesc)) (var_name : String) (var : VarDesc) :
    String → Option (PyArray × VarDesc) :=
  fun n => if n = var_name then some (zeros (get_dimensions var.dims) var.dtype, var) else st n

/-- Evaluation of a conditional-variable key against the settings: a key
starting with `not ` negates the flag named by the rest of the key
(Python slices strings by characters, so the test and the slice are on
the character list), otherwise the key names the flag itself (`getattr`
is the flag lookup on the instance, truthiness included). -/
def eval_condition (getattr : String → Bool) (condition : String) : Bool :=
  if condition.data.take 4 = ("not ").data then
    ! getattr (String.mk (condition.data.drop 4))
  else getattr condition

/-- `PyOM.allocate`: initialize every main variable, then every variable
of each conditional group whose condition evaluates true. -/
def allocate (getattr : String → Bool) (get_dimensions : List String → List Nat)
    (main_variables : List (String × VarDesc))
    (conditional_variables : List (String × List (String × VarDesc))) :
    String → Option (PyArray × VarDesc) :=
  let st1 := main_variables.foldl
    (fun st p => init_var get_dimensions st p.1 p.2) (fun _ => none)
  conditional_variables.foldl
    (fun st p =>
      if eval_condition getattr p.1 then
        p.2.foldl (fun st q => init_var get_dimensions st q.1 q.2) st
      else st)
    st1

/-- A descriptor for `name` whose enable-predicate is satisfied: either
a main (unconditional) entry, or an entry of a conditional group whose
condition evaluates true against the settings. -/
def allocSource (getattr : String → Bool)
    (main_variables : List (String × VarDesc))
    (conditional_variables : List (String × List (String × VarDesc)))
    (name : String) (var : VarDesc) : Prop :=
  (name, var) ∈ main_variables ∨
    ∃ c vars, (c, vars) ∈ conditional_variables ∧
      eval_condition getattr c = true ∧ (name, var) ∈ vars

/-- A state with every flag off, used to instantiate theorems with
hypotheses at concrete inputs. -/
def demoState : SimState where
  itt := 0
  enditt := 0
  timeLevels := { taum1 := 0, tau := 1, taup1 := 2 }
  enable_tke := false
  enable_implicit_vert_friction := false
  enable_cyclic_x := false
  enable_eke := false
  enable_idemix := false
  enable_idemix_M2 := false
  enable_idemix_niw := false
  enable_diag_averages := false
  enable_diag_energy := false
  enable_diag_overturning := false
  enable_diag_particles := false
  restartReads := []
  stepsExecuted := 0
  panicSnaps := 0
  exchanges := []

lemma stepSuccess_itt (s : SimState) : (stepSuccess s).itt = s.itt + 1 := rfl

lemma stepSuccess_enditt (s : SimState) : (stepSuccess s).enditt = s.enditt := rfl

lemma stepSuccess_panicSnaps (s : SimState) : (stepSuccess s).panicSnaps = s.panicSnaps := rfl

lemma stepSuccess_iterate_itt (j : Nat) (s : SimState) :
    (stepSuccess^[j] s).itt = s.itt + j := by
  induction j generalizing s with
  | zero => simp
  | succ j ih =>
    rw [Function.iterate_succ_apply, ih, stepSuccess_itt]
    push_cast
    ring

lemma stepSuccess_iterate_panicSnaps (j : Nat) (s : SimState) :
    (stepSuccess^[j] s).panicSnaps = s.panicSnaps := by
  induction j generalizing s with
  | zero => simp
  | succ j ih => rw [Function.iterate_succ_apply, ih, stepSuccess_panicSnaps]

lemma multiset_triple_rot (a b c : Nat) : ({b, c, a} : Multiset Nat) = {a, b, c} := by
  change b ::ₘ c ::ₘ a ::ₘ 0 = a ::ₘ b ::ₘ c ::ₘ 0
  rw [Multiset.cons_swap c a, Multiset.cons_swap b a]

lemma isPermutation_rotate (t : TimeLevels) (h : isPermutation t) :
    isPermutation (rotate t) := by
  show ({t.tau, t.taup1, t.taum1} : Multiset Nat) = {0, 1, 2}
  rw [multiset_triple_rot t.taum1 t.tau t.taup1]
  exact h

lemma isPermutation_runLoop (oracle : Int → Option PyError) (fuel : Nat) (s : SimState)
    (h : isPermutation s.timeLevels) :
    isPermutation ((runLoop oracle fuel s).1.timeLevels) := by
  induction fuel generalizing s with
  | zero => exact h
  | succ fuel ih =>
    rw [runLoop]
    by_cases hlt : s.itt < s.enditt
    · rw [if_pos hlt]
      match oracle s.itt with
      | some e => exact h
      | none => exact ih (stepSuccess s) (isPermutation_rotate s.timeLevels h)
    · rw [if_neg hlt]
      exact h

/-- C1: the rotation performed once at the end of each step is the pure
index relabeling previous ← current, current ← next, next ← previous,
copying no array contents, and applying it three times returns the slot
assignment to exactly its value before the first application. -/
theorem rotation_pure_relabeling_order_three (f : TimeSlottedField) :
    rotateField f =
      { levels := { taum1 := f.levels.tau, tau := f.levels.taup1, taup1 := f.levels.taum1 },
        data := f.data } ∧
    rotateField (rotateField (rotateField f)) = f :=
  ⟨rfl, rfl⟩

/-- Witness for C1 at a concrete field. -/
theorem rotation_pure_relabeling_order_three_witness :
    rotateField { levels := initialTimeLevels, data := fun _ => 7 } =
      { levels := { taum1 := 1, tau := 2, taup1 := 0 },
        data := fun _ => 7 } ∧
    rotateField (rotateField (rotateField
      { levels := initialTimeLevels, data := fun _ => 7 })) =
      { levels := initialTimeLevels, data := fun _ => 7 } :=
  rotation_pure_relabeling_order_three { levels := initialTimeLevels, data := fun _ => 7 }

/-- C9 counterexample: the slot labeled previous after one rotation does
not refer to the position labeled next before the rotation (it refers
to the one labeled current): concretely from the identity assignment. -/
theorem rotation_previous_neq_old_next_counterexample :
    (rotate { taum1 := 0, tau := 1, taup1 := 2 }).taum1 ≠
      ({ taum1 := 0, tau := 1, taup1 := 2 } : TimeLevels).taup1 := by
  decide

/-- C9 (amended): after one rotation the slot labeled current (not
previous) refers to the position labeled next before; previous refers
to the position labeled current before; a sentinel written into next
before rotating is read back from current after rotating, and rotation
touches no array contents. -/
theorem rotation_current_is_old_next (f : TimeSlottedField) (v : Rat) :
    readSlot (rotateField (writeSlot f SlotLabel.next v)) SlotLabel.current = v ∧
    (rotate f.levels).tau = f.levels.taup1 ∧
    (rotate f.levels).taum1 = f.levels.tau ∧
    (rotateField f).data = f.data := by
  refine ⟨?_, rfl, rfl, rfl⟩
  simp [readSlot, writeSlot, rotateField, rotate, slotIndex]

/-- Witness for C9 (amended) at a concrete field and sentinel. -/
theorem rotation_current_is_old_next_witness :
    readSlot (rotateField (writeSlot { levels := initialTimeLevels, data := fun _ => 0 }
      SlotLabel.next 42)) SlotLabel.current = 42 ∧
    (rotate initialTimeLevels).tau = initialTimeLevels.taup1 ∧
    (rotate initialTimeLevels).taum1 = initialTimeLevels.tau ∧
    (rotateField { levels := initialTimeLevels, data := fun _ => 0 }).data =
      (fun _ => (0 : Rat)) :=
  rotation_current_is_old_next { levels := initialTimeLevels, data := fun _ => 0 } 42

/-- C6: initially and after every completed step's rotation the mapping
from the three slot labels to the three physical positions is a
permutation of 0, 1, 2; moreover the step loop preserves the
permutation property from any state. -/
theorem time_levels_permutation_invariant :
    (∀ n : Nat, isPermutation (rotate^[n] initialTimeLevels)) ∧
    (∀ (oracle : Int → Option PyError) (fuel : Nat) (s : SimState),
      isPermutation s.timeLevels → isPermutation ((runLoop oracle fuel s).1.timeLevels)) := by
  constructor
  · intro n
    induction n with
    | zero => decide
    | succ n ih =>
      rw [Function.iterate_succ_apply']
      exact isPermutation_rotate _ ih
  · exact isPermutation_runLoop

/-- Witness for C6: loop preservation applied from the identity
assignment with two steps of fuel. -/
theorem time_levels_permutation_invariant_witness :
    isPermutation ((runLoop (fun _ => none) 2
      { demoState with enditt := 2, timeLevels := initialTimeLevels }).1.timeLevels) :=
  time_levels_permutation_invariant.2 (fun _ => none) 2
    { demoState with enditt := 2, timeLevels := initialTimeLevels } (by decide)

/-- C8 counterexample: the flush call site is not the only one outside
the panic path that silently absorbs a failure: in the profiling
finalization of `run`, stopping a never-started profiler raises
`UnboundLocalError` and the site absorbs it, returning normally. -/
theorem flush_not_only_absorbing_site_counterexample :
    profiler_stop false =
      Except.error (PyError.unboundLocalError ("local variable profiler referenced before assignment")) ∧
    profiler_finalize true false = Except.ok () :=
  ⟨rfl, rfl⟩

/-- C8 (amended): `flush` suppresses exactly the backend
`AttributeError` (the backend-unsupported-operation condition) and
passes every other outcome through unchanged; but it is not the only
absorbing call site outside the panic path, since the profiling
finalization of `run` also silently absorbs `UnboundLocalError`. -/
theorem flush_swallows_only_attribute_error :
    (∀ msg : String, flush (Except.error (PyError.attributeError msg)) = Except.ok ()) ∧
    flush (Except.ok ()) = Except.ok () ∧
    (∀ e : PyError, (∀ msg, e ≠ PyError.attributeError msg) →
      flush (Except.error e) = Except.error e) ∧
    profiler_finalize true false = Except.ok () := by
  refine ⟨fun msg => rfl, rfl, ?_, rfl⟩
  intro e he
  cases e with
  | runtimeError msg => rfl
  | attributeError msg => exact absurd rfl (he msg)
  | unboundLocalError msg => rfl
  | stageFailure ty msg => rfl

/-- Witness for C8 (amended): a non-AttributeError failure during flush
propagates unchanged. -/
theorem flush_swallows_only_attribute_error_witness :
    flush (Except.error (PyError.runtimeError ("boom"))) =
      Except.error (PyError.runtimeError ("boom")) :=
  flush_swallows_only_attribute_error.2.2.1 (PyError.runtimeError ("boom"))
    (fun _ h => PyError.noConfusion h)

lemma mem_ite_singleton {α : Type} (b : Bool) (x y : α) :
    (x ∈ (if b then [y] else [])) ↔ (b = true ∧ x = y) := by
  cases b <;> simp

/-- C7: the periodic boundary exchange runs in a step iff
`enable_cyclic_x` is set, and when it runs it targets the `taup1`
(next) slot of exactly `u`, `v` (always) and `tke`, `eke`, `E_iw`,
`E_M2`, `E_niw` under their own enable flags; the step appends exactly
these exchanges to the instrumentation. -/
theorem boundary_exchange_fields_iff_flags (s : SimState) (name : String) (slot : Nat) :
    ((name, slot) ∈ boundaryExchanges s ↔
      (s.enable_cyclic_x = true ∧ slot = s.timeLevels.taup1 ∧
        (name = "u" ∨ name = "v" ∨
          (name = "tke" ∧ s.enable_tke = true) ∨
          (name = "eke" ∧ s.enable_eke = true) ∨
          (name = "E_iw" ∧ s.enable_idemix = true) ∨
          (name = "E_M2" ∧ s.enable_idemix_M2 = true) ∨
          (name = "E_niw" ∧ s.enable_idemix_niw = true)))) ∧
    (stepSuccess s).exchanges = s.exchanges ++ boundaryExchanges s := by
  refine ⟨?_, rfl⟩
  by_cases hc : s.enable_cyclic_x = true
  · rw [boundaryExchanges, if_pos hc]
    simp only [List.mem_append, List.mem_cons, List.mem_singleton, List.not_mem_nil,
      mem_ite_singleton, Prod.mk.injEq, hc, true_and, or_false]
    tauto
  · rw [boundaryExchanges, if_neg hc]
    simp only [List.not_mem_nil, false_iff]
    intro h
    exact hc h.1

/-- Witness for C7: with the cyclic domain and the TKE closure enabled,
the `tke` field's next slot is exchanged. -/
theorem boundary_exchange_fields_iff_flags_witness :
    (("tke", 2) ∈ boundaryExchanges
        { demoState with enable_cyclic_x := true, enable_tke := true } ↔
      (({ demoState with enable_cyclic_x := true, enable_tke := true } : SimState).enable_cyclic_x = true ∧
        (2 : Nat) = ({ demoState with enable_cyclic_x := true, enable_tke := true } : SimState).timeLevels.taup1 ∧
        (("tke" : String) = "u" ∨ ("tke" : String) = "v" ∨
          (("tke" : String) = "tke" ∧ ({ demoState with enable_cyclic_x := true, enable_tke := true } : SimState).enable_tke = true) ∨
          (("tke" : String) = "eke" ∧ ({ demoState with enable_cyclic_x := true, enable_tke := true } : SimState).enable_eke = true) ∨
          (("tke" : String) = "E_iw" ∧ ({ demoState with enable_cyclic_x := true, enable_tke := true } : SimState).enable_idemix = true) ∨
          (("tke" : String) = "E_M2" ∧ ({ demoState with enable_cyclic_x := true, enable_tke := true } : SimState).enable_idemix_M2 = true) ∨
          (("tke" : String) = "E_niw" ∧ ({ demoState with enable_cyclic_x := true, enable_tke := true } : SimState).enable_idemix_niw = true)))) ∧
    (stepSuccess { demoState with enable_cyclic_x := true, enable_tke := true }).exchanges =
      ({ demoState with enable_cyclic_x := true, enable_tke := true } : SimState).exchanges ++
        boundaryExchanges { demoState with enable_cyclic_x := true, enable_tke := true } :=
  boundary_exchange_fields_iff_flags
    { demoState with enable_cyclic_x := true, enable_tke := true } "tke" 2

lemma int_trunc_eq_floor (q : Rat) (h : 0 ≤ q) : int_trunc q = ⌊q⌋ := by
  rw [Rat.floor_def, int_trunc]
  exact Int.tdiv_eq_ediv (Rat.num_nonneg.mpr h) (Int.natCast_nonneg _)

unseal Rat.inv Rat.mul in
/-- C4: the end iteration is start + floor(runlen / dt_tracer) for the
(physical) nonnegative run lengths, concretely 5 for runlen 10 and
dt_tracer 2 and still 5 for runlen 11 (truncation, not rounding); and
the step loop runs only while the iteration counter is strictly below
the end iteration. -/
theorem enditt_floor_truncation :
    (∀ (itt : Int) (runlen dt_tracer : Rat), 0 ≤ runlen → 0 < dt_tracer →
      computeEnditt itt runlen dt_tracer = itt + ⌊runlen / dt_tracer⌋) ∧
    computeEnditt 0 10 2 = 5 ∧
    computeEnditt 0 11 2 = 5 ∧
    (∀ (oracle : Int → Option PyError) (fuel : Nat) (s : SimState),
      ¬ s.itt < s.enditt → runLoop oracle fuel s = (s, none)) := by
  refine ⟨?_, by decide, by decide, ?_⟩
  · intro itt runlen dt_tracer hr hd
    rw [computeEnditt, int_trunc_eq_floor _ (div_nonneg hr (le_of_lt hd))]
  · intro oracle fuel s h
    cases fuel with
    | zero => rfl
    | succ fuel => rw [runLoop, if_neg h]

/-- Witness for C4 at start iteration 0, run length 10, time step 2. -/
theorem enditt_floor_truncation_witness :
    computeEnditt 0 10 2 = 0 + ⌊(10 : Rat) / 2⌋ ∧
    runLoop (fun _ => none) 5 demoState = (demoState, none) :=
  ⟨enditt_floor_truncation.1 0 10 2 (by decide) (by decide),
    enditt_floor_truncation.2.2.2 (fun _ => none) 5 demoState (by decide)⟩

/-- C5: whenever the TKE closure is enabled and implicit vertical
friction is disabled, `run` fails with the configuration
`RuntimeError` raised by `setup`, leaving the state untouched: no
restart read is performed and the step loop never starts. -/
theorem tke_without_implicit_friction_fails_setup
    (oracle : Int → Option PyError) (snapFails : Bool) (runlen dt_tracer : Rat)
    (s0 : SimState) (htke : s0.enable_tke = true)
    (hfric : s0.enable_implicit_vert_friction = false) :
    run oracle snapFails runlen dt_tracer s0 = (s0, some tke_friction_error) ∧
    setup s0 = Except.error tke_friction_error := by
  have hsetup : setup s0 = Except.error tke_friction_error := by
    rw [setup, if_pos]
    rw [htke, hfric]
    rfl
  constructor
  · rw [run, hsetup]
  · exact hsetup

/-- Witness for C5: a state with the TKE closure on and implicit
friction off. -/
theorem tke_without_implicit_friction_fails_setup_witness :
    run (fun _ => none) false 10 2 { demoState with enable_tke := true } =
      ({ demoState with enable_tke := true }, some tke_friction_error) ∧
    setup { demoState with enable_tke := true } = Except.error tke_friction_error :=
  tke_without_implicit_friction_fails_setup (fun _ => none) false 10 2
    { demoState with enable_tke := true } rfl rfl

lemma panic_snap_itt (b : Bool) (s : SimState) : (panic_snap b s).itt = s.itt := rfl

lemma panic_snap_panicSnaps (b : Bool) (s : SimState) :
    (panic_snap b s).panicSnaps = s.panicSnaps + 1 := rfl

lemma runLoop_first_failure (oracle : Int → Option PyError) (j : Nat) :
    ∀ (s : SimState) (e : PyError) (fuel : Nat),
      (∀ i : Nat, i < j → oracle (s.itt + (i : Int)) = none) →
      oracle (s.itt + (j : Int)) = some e →
      s.itt + (j : Int) < s.enditt →
      (s.enditt - s.itt).toNat ≤ fuel →
      runLoop oracle fuel s = (stepSuccess^[j] s, some e) := by
  induction j with
  | zero =>
    intro s e fuel hnone hfail hlt hfuel
    have hfail0 : oracle s.itt = some e := by simpa using hfail
    have hlt0 : s.itt < s.enditt := by
      have h := hlt
      push_cast at h
      omega
    cases fuel with
    | zero => exact absurd hfuel (by omega)
    | succ fuel =>
      rw [runLoop, if_pos hlt0, hfail0]
      simp
  | succ j ih =>
    intro s e fuel hnone hfail hlt hfuel
    have hlt0 : s.itt < s.enditt := by
      have h := hlt
      push_cast at h
      omega
    have h0 : oracle s.itt = none := by simpa using hnone 0 (Nat.succ_pos j)
    have hstep : (stepSuccess s).itt = s.itt + 1 := rfl
    have hend : (stepSuccess s).enditt = s.enditt := rfl
    cases fuel with
    | zero => exact absurd hfuel (by omega)
    | succ fuel =>
      rw [runLoop, if_pos hlt0, h0]
      rw [ih (stepSuccess s) e fuel ?_ ?_ ?_ ?_]
      · rw [← Function.iterate_succ_apply]
      · intro i hi
        have hv := hnone (i + 1) (by omega)
        have harith : (stepSuccess s).itt + (i : Int) = s.itt + ((i + 1 : Nat) : Int) := by
          rw [hstep]
          push_cast
          ring
        rw [harith]
        exact hv
      · have harith : (stepSuccess s).itt + (j : Int) = s.itt + ((j + 1 : Nat) : Int) := by
          rw [hstep]
          push_cast
          ring
        rw [harith]
        exact hfail
      · rw [hstep, hend]
        have h := hlt
        push_cast at h ⊢
        omega
      · rw [hstep, hend]
        omega

lemma run_unfold_ok (oracle : Int → Option PyError) (snapFails : Bool)
    (runlen dt_tracer : Rat) (s0 : SimState) (hsetup : setup s0 = Except.ok s0) :
    run oracle snapFails runlen dt_tracer s0 =
      (match runLoop oracle
          ((computeEnditt s0.itt runlen dt_tracer - s0.itt).toNat)
          { read_restarts s0 with enditt := computeEnditt s0.itt runlen dt_tracer } with
        | (s4, none) => (s4, none)
        | (s4, some e) => (panic_snap snapFails s4, some e)) := by
  simp only [run]
  rw [hsetup]
  rfl

/-- C2: a collaborator stage failure at the j-th step of the loop (the
first failing step) makes `run` re-raise exactly that error, leaves the
iteration counter at the failing step's index (not incremented), and
invokes the panic snapshot exactly once — whether or not the snapshot
call fails internally (`snapFails` arbitrary). -/
theorem stage_failure_panic_snapshot_reraise
    (oracle : Int → Option PyError) (snapFails : Bool) (runlen dt_tracer : Rat)
    (s0 : SimState) (j : Nat) (e : PyError)
    (hsetup : setup s0 = Except.ok s0)
    (hnone : ∀ i : Nat, i < j → oracle (s0.itt + (i : Int)) = none)
    (hfail : oracle (s0.itt + (j : Int)) = some e)
    (hlt : (j : Int) < int_trunc (runlen / dt_tracer)) :
    (run oracle snapFails runlen dt_tracer s0).2 = some e ∧
    (run oracle snapFails runlen dt_tracer s0).1.itt = s0.itt + (j : Int) ∧
    (run oracle snapFails runlen dt_tracer s0).1.panicSnaps = s0.panicSnaps + 1 := by
  have hloop := runLoop_first_failure oracle j
    { read_restarts s0 with enditt := computeEnditt s0.itt runlen dt_tracer } e
    ((computeEnditt s0.itt runlen dt_tracer - s0.itt).toNat)
    hnone hfail
    (by
      show s0.itt + (j : Int) < computeEnditt s0.itt runlen dt_tracer
      rw [computeEnditt]
      omega)
    (le_refl _)
  have hrun : run oracle snapFails runlen dt_tracer s0 =
      (panic_snap snapFails (stepSuccess^[j]
        { read_restarts s0 with enditt := computeEnditt s0.itt runlen dt_tracer }), some e) := by
    rw [run_unfold_ok oracle snapFails runlen dt_tracer s0 hsetup, hloop]
  refine ⟨by rw [hrun], ?_, ?_⟩
  · rw [hrun, panic_snap_itt, stepSuccess_iterate_itt]
    rfl
  · rw [hrun, panic_snap_panicSnaps, stepSuccess_iterate_panicSnaps]
    rfl

unseal Rat.inv Rat.mul in
/-- Witness for C2: a stage failure at the second step (index 1) of a
five-step run, with the snapshot itself failing internally. -/
theorem stage_failure_panic_snapshot_reraise_witness :
    (run (fun i => if i = 1 then some (PyError.stageFailure ("RuntimeError") ("boom")) else none)
        true 10 2 demoState).2 = some (PyError.stageFailure ("RuntimeError") ("boom")) ∧
    (run (fun i => if i = 1 then some (PyError.stageFailure ("RuntimeError") ("boom")) else none)
        true 10 2 demoState).1.itt = demoState.itt + ((1 : Nat) : Int) ∧
    (run (fun i => if i = 1 then some (PyError.stageFailure ("RuntimeError") ("boom")) else none)
        true 10 2 demoState).1.panicSnaps = demoState.panicSnaps + 1 :=
  stage_failure_panic_snapshot_reraise
    (fun i => if i = 1 then some (PyError.stageFailure ("RuntimeError") ("boom")) else none)
    true 10 2 demoState 1 (PyError.stageFailure ("RuntimeError") ("boom"))
    rfl (by decide) (by decide) (by decide)

/-- C10: when the requested run length spans less than one tracer time
step (truncated quotient 0), the end iteration equals the start
iteration and the loop body never executes: `run` returns normally with
the iteration counter, step count, panic count, exchanges and time
levels all unchanged — only the restart reads and the end-iteration
assignment have happened. -/
theorem zero_step_run_noop
    (oracle : Int → Option PyError) (snapFails : Bool) (runlen dt_tracer : Rat)
    (s0 : SimState)
    (hsetup : setup s0 = Except.ok s0)
    (hzero : int_trunc (runlen / dt_tracer) = 0) :
    run oracle snapFails runlen dt_tracer s0 =
      ({ read_restarts s0 with enditt := s0.itt }, none) ∧
    (run oracle snapFails runlen dt_tracer s0).2 = none ∧
    (run oracle snapFails runlen dt_tracer s0).1.itt = s0.itt ∧
    (run oracle snapFails runlen dt_tracer s0).1.stepsExecuted = s0.stepsExecuted ∧
    (run oracle snapFails runlen dt_tracer s0).1.panicSnaps = s0.panicSnaps ∧
    (run oracle snapFails runlen dt_tracer s0).1.exchanges = s0.exchanges ∧
    (run oracle snapFails runlen dt_tracer s0).1.timeLevels = s0.timeLevels := by
  have henditt : computeEnditt s0.itt runlen dt_tracer = s0.itt := by
    rw [computeEnditt, hzero, add_zero]
  have hrun : run oracle snapFails runlen dt_tracer s0 =
      ({ read_restarts s0 with enditt := s0.itt }, none) := by
    have hfuel : (s0.itt - s0.itt).toNat = 0 := by omega
    rw [run_unfold_ok oracle snapFails runlen dt_tracer s0 hsetup, henditt, hfuel]
    rfl
  refine ⟨hrun, by rw [hrun], ?_, ?_, ?_, ?_, ?_⟩ <;> rw [hrun] <;> rfl

unseal Rat.inv Rat.mul in
/-- Witness for C10: run length 1 with tracer time step 2 truncates to
zero steps. -/
theorem zero_step_run_noop_witness :
    run (fun _ => none) false 1 2 demoState =
      ({ read_restarts demoState with enditt := demoState.itt }, none) ∧
    (run (fun _ => none) false 1 2 demoState).2 = none ∧
    (run (fun _ => none) false 1 2 demoState).1.itt = demoState.itt ∧
    (run (fun _ => none) false 1 2 demoState).1.stepsExecuted = demoState.stepsExecuted ∧
    (run (fun _ => none) false 1 2 demoState).1.panicSnaps = demoState.panicSnaps ∧
    (run (fun _ => none) false 1 2 demoState).1.exchanges = demoState.exchanges ∧
    (run (fun _ => none) false 1 2 demoState).1.timeLevels = demoState.timeLevels :=
  zero_step_run_noop (fun _ => none) false 1 2 demoState rfl (by decide)

lemma foldl_init_var_isSome (get_dimensions : List String → List Nat)
    (vars : List (String × VarDesc)) :
    ∀ (st : String → Option (PyArray × VarDesc)) (name : String),
      ((vars.foldl (fun st p => init_var get_dimensions st p.1 p.2) st) name).isSome =
        (vars.any (fun p => p.1 == name) || (st name).isSome) := by
  induction vars with
  | nil =>
    intro st name
    simp
  | cons p vars ih =>
    intro st name
    rw [List.foldl_cons, ih]
    by_cases hn : name = p.1
    · have hb : (p.1 == name) = true := by
        rw [beq_iff_eq, hn]
      simp [init_var, hn, hb]
    · have hb : (p.1 == name) = false := by
        rw [beq_eq_false_iff_ne]
        exact fun h => hn h.symm
      simp [init_var, hn, hb]

lemma foldl_init_var_some (get_dimensions : List String → List Nat)
    (vars : List (String × VarDesc)) :
    ∀ (st : String → Option (PyArray × VarDesc)) (name : String) (e : PyArray × VarDesc),
      (vars.foldl (fun st p => init_var get_dimensions st p.1 p.2) st) name = some e →
      (∃ var, (name, var) ∈ vars ∧ e = (zeros (get_dimensions var.dims) var.dtype, var)) ∨
        st name = some e := by
  induction vars with
  | nil =>
    intro st name e h
    exact Or.inr h
  | cons p vars ih =>
    intro st name e h
    rw [List.foldl_cons] at h
    rcases ih _ name e h with ⟨var, hmem, hval⟩ | hst
    · exact Or.inl ⟨var, List.mem_cons_of_mem p hmem, hval⟩
    · unfold init_var at hst
      by_cases hn : name = p.1
      · rw [if_pos hn] at hst
        refine Or.inl ⟨p.2, ?_, (Option.some_inj.mp hst).symm⟩
        rw [hn]
        exact List.mem_cons_self p vars
      · rw [if_neg hn] at hst
        exact Or.inr hst

lemma foldl_cond_isSome (getattr : String → Bool) (get_dimensions : List String → List Nat)
    (groups : List (String × List (String × VarDesc))) :
    ∀ (st : String → Option (PyArray × VarDesc)) (name : String),
      ((groups.foldl
          (fun st p =>
            if eval_condition getattr p.1 then
              p.2.foldl (fun st q => init_var get_dimensions st q.1 q.2) st
            else st) st) name).isSome =
        (groups.any (fun p => eval_condition getattr p.1 && p.2.any (fun q => q.1 == name)) ||
          (st name).isSome) := by
  induction groups with
  | nil =>
    intro st name
    simp
  | cons p groups ih =>
    intro st name
    rw [List.foldl_cons, ih]
    by_cases hc : eval_condition getattr p.1 = true
    · rw [if_pos hc, foldl_init_var_isSome]
      simp [hc, Bool.or_comm, Bool.or_assoc, Bool.or_left_comm]
    · have hc0 : eval_condition getattr p.1 = false := by
        cases h : eval_condition getattr p.1
        · rfl
        · exact absurd h hc
      rw [if_neg hc]
      simp [hc0]

lemma foldl_cond_some (getattr : String → Bool) (get_dimensions : List String → List Nat)
    (groups : List (String × List (String × VarDesc))) :
    ∀ (st : String → Option (PyArray × VarDesc)) (name : String) (e : PyArray × VarDesc),
      (groups.foldl
          (fun st p =>
            if eval_condition getattr p.1 then
              p.2.foldl (fun st q => init_var get_dimensions st q.1 q.2) st
            else st) st) name = some e →
      (∃ c vars var, (c, vars) ∈ groups ∧ eval_condition getattr c = true ∧
        (name, var) ∈ vars ∧ e = (zeros (get_dimensions var.dims) var.dtype, var)) ∨
        st name = some e := by
  induction groups with
  | nil =>
    intro st name e h
    exact Or.inr h
  | cons p groups ih =>
    intro st name e h
    rw [List.foldl_cons] at h
    rcases ih _ name e h with ⟨c, vars, var, hg, hc, hm, hv⟩ | hst
    · exact Or.inl ⟨c, vars, var, List.mem_cons_of_mem p hg, hc, hm, hv⟩
    · by_cases hc : eval_condition getattr p.1 = true
      · rw [if_pos hc] at hst
        rcases foldl_init_var_some get_dimensions p.2 st name e hst with ⟨var, hm, hv⟩ | hst2
        · exact Or.inl ⟨p.1, p.2, var, List.mem_cons_self p groups, hc, hm, hv⟩
        · exact Or.inr hst2
      · rw [if_neg hc] at hst
        exact Or.inr hst

/-- C3: `allocate` materializes exactly the fields with a satisfied
descriptor: a name is present iff it has a main (unconditional) entry
or an entry in a conditional group whose condition — a bare flag name
or `not ` plus a flag name — evaluates true against the settings; and
every allocated entry is a zero-initialized array of the resolved shape
of a satisfied descriptor, recorded with that descriptor. -/
theorem allocate_exactly_enabled_fields (getattr : String → Bool)
    (get_dimensions : List String → List Nat)
    (main_variables : List (String × VarDesc))
    (conditional_variables : List (String × List (String × VarDesc)))
    (name : String) :
    ((allocate getattr get_dimensions main_variables conditional_variables name).isSome ↔
      ∃ var, allocSource getattr main_variables conditional_variables name var) ∧
    (∀ (arr : PyArray) (var : VarDesc),
      allocate getattr get_dimensions main_variables conditional_variables name =
        some (arr, var) →
      arr = zeros (get_dimensions var.dims) var.dtype ∧
      allocSource getattr main_variables conditional_variables name var) := by
  constructor
  · simp only [allocate]
    rw [foldl_cond_isSome, foldl_init_var_isSome]
    simp only [allocSource, Option.isSome_none, Bool.or_false, Bool.or_eq_true,
      List.any_eq_true, Bool.and_eq_true, beq_iff_eq]
    constructor
    · rintro (⟨p, hg, hc, q, hq, hq1⟩ | ⟨p, hm, hp1⟩)
      · refine ⟨q.2, Or.inr ⟨p.1, p.2, hg, hc, ?_⟩⟩
        rw [← hq1]
        exact hq
      · refine ⟨p.2, Or.inl ?_⟩
        rw [← hp1]
        exact hm
    · rintro ⟨var, hsrc | ⟨c, vars, hg, hc, hm⟩⟩
      · exact Or.inr ⟨(name, var), hsrc, rfl⟩
      · exact Or.inl ⟨(c, vars), hg, hc, (name, var), hm, rfl⟩
  · intro arr var h
    simp only [allocate] at h
    rcases foldl_cond_some getattr get_dimensions conditional_variables _ name (arr, var) h with
      ⟨c, vars, var2, hg, hc, hm, hv⟩ | hst
    · injection hv with h1 h2
      subst h2
      exact ⟨h1, Or.inr ⟨c, vars, hg, hc, hm⟩⟩
    · rcases foldl_init_var_some get_dimensions main_variables _ name (arr, var) hst with
        ⟨var2, hm, hv⟩ | hnone
      · injection hv with h1 h2
        subst h2
        exact ⟨h1, Or.inl hm⟩
      · exact absurd hnone (by simp)

/-- A settings lookup, dimension resolver and variable catalog used to
instantiate the allocator theorem concretely: the TKE flag is on, so
`tke` is allocated and the negated group (`kappaM`) is not. -/
def demoGetattr : String → Bool := fun n => n == "enable_tke"

def demoDims : List String → List Nat := fun dims => [dims.length]

def demoMain : List (String × VarDesc) :=
  [("u", { dims := ["xt", "yt", "zt", "time"], dtype := "float" })]

def demoCond : List (String × List (String × VarDesc)) :=
  [("enable_tke", [("tke", { dims := ["xt"], dtype := "float" })]),
    ("not enable_tke", [("kappaM", { dims := ["xt"], dtype := "float" })])]

/-- Witness for C3: the allocated `tke` entry comes from a satisfied
descriptor, and presence of `kappaM` is equivalent to it having a
satisfied descriptor. -/
theorem allocate_exactly_enabled_fields_witness :
    allocSource demoGetattr demoMain demoCond "tke" { dims := ["xt"], dtype := "float" } ∧
    ((allocate demoGetattr demoDims demoMain demoCond "kappaM").isSome ↔
      ∃ var, allocSource demoGetattr demoMain demoCond "kappaM" var) :=
  ⟨((allocate_exactly_enabled_fields demoGetattr demoDims demoMain demoCond "tke").2
      (zeros (demoDims ["xt"]) ("float")) { dims := ["xt"], dtype := "float" } rfl).2,
    (allocate_exactly_enabled_fields demoGetattr demoDims demoMain demoCond "kappaM").1⟩
